import Mathlib

/-!
Verification development for the D3D9 render-window lifecycle logic
(`D3D9RenderWindow` in `CmD3D9RenderWindow.cpp`).

The member functions `setFullscreen`, `move`, `resize`, `updateWindowRect`,
`_adjustWindow`, `_finishSwitchingFullscreen`, `swapBuffers`, `copyToMemory`
and `_buildPresentParameters` are embedded shallowly:

* the window's mutable members become the `SurfaceState` record;
* calls into the OS window system and into the bound device are modelled by
  an environment record (`WinEnv` for monitor/decoration queries,
  `WindowRectQuery` for the two geometry queries of `updateWindowRect`,
  `Caps` for the Direct3D capability probe) plus an effect trace
  (`List OsCall`) returned next to the updated state;
* `DWORD`/`UINT32` arithmetic is `Nat`, `LONG`/`INT32` arithmetic is `Int`,
  and the one place the source casts a signed value to unsigned
  (`(unsigned int)maxW` in `_adjustWindow`) is modelled by `u32`.

All numeric constants carry their actual Win32 / D3D9 values.
-/

/-- Win32 window style bit `WS_VISIBLE`. -/
def WS_VISIBLE : Nat := 0x10000000

/-- Win32 window style bit `WS_CLIPCHILDREN`. -/
def WS_CLIPCHILDREN : Nat := 0x02000000

/-- Win32 window style bit `WS_POPUP`. -/
def WS_POPUP : Nat := 0x80000000

/-- Win32 window style mask `WS_OVERLAPPEDWINDOW`. -/
def WS_OVERLAPPEDWINDOW : Nat := 0x00CF0000

/-- D3D9 16-bit backbuffer format `D3DFMT_R5G6B5`. -/
def D3DFMT_R5G6B5 : Nat := 23

/-- D3D9 32-bit backbuffer format `D3DFMT_X8R8G8B8`. -/
def D3DFMT_X8R8G8B8 : Nat := 22

/-- D3D9 32-bit depth-only format `D3DFMT_D32`. -/
def D3DFMT_D32 : Nat := 71

/-- D3D9 24-bit depth + 8-bit stencil format `D3DFMT_D24S8`. -/
def D3DFMT_D24S8 : Nat := 75

/-- D3D9 24-bit depth, no stencil format `D3DFMT_D24X8`. -/
def D3DFMT_D24X8 : Nat := 77

/-- D3D9 16-bit depth format `D3DFMT_D16`. -/
def D3DFMT_D16 : Nat := 80

/-- D3D9 present interval `D3DPRESENT_INTERVAL_ONE`. -/
def D3DPRESENT_INTERVAL_ONE : Nat := 0x00000001

/-- D3D9 present interval `D3DPRESENT_INTERVAL_TWO`. -/
def D3DPRESENT_INTERVAL_TWO : Nat := 0x00000002

/-- D3D9 present interval `D3DPRESENT_INTERVAL_THREE`. -/
def D3DPRESENT_INTERVAL_THREE : Nat := 0x00000004

/-- D3D9 present interval `D3DPRESENT_INTERVAL_FOUR`. -/
def D3DPRESENT_INTERVAL_FOUR : Nat := 0x00000008

/-- D3D9 present interval `D3DPRESENT_INTERVAL_IMMEDIATE`. -/
def D3DPRESENT_INTERVAL_IMMEDIATE : Nat := 0x80000000

/-- Truncation of a signed 32-bit value to `unsigned int`, as performed by the
C cast `(unsigned int)maxW` in `_adjustWindow`. -/
def u32 (x : Int) : Nat := (x % 4294967296).toNat

/-- A Win32 `RECT`: `LONG` coordinates. -/
structure Rect where
  left : Int
  top : Int
  right : Int
  bottom : Int
deriving Repr, DecidableEq

/-- A Win32 `MONITORINFO` snapshot: full monitor rectangle and work-area
rectangle. -/
structure MonitorInfo where
  rcMonitor : Rect
  rcWork : Rect
deriving Repr, DecidableEq

/-- The mutable members of `D3D9RenderWindow` that the embedded operations
touch. `mHWnd` records whether a native window handle is present
(`mHWnd != 0`), `mDevice` whether a device is bound (`mDevice != NULL`). -/
structure SurfaceState where
  mWidth : Nat
  mHeight : Nat
  mTop : Int
  mLeft : Int
  mDesiredWidth : Nat
  mDesiredHeight : Nat
  mIsFullScreen : Bool
  mStyle : Nat
  mSwitchingFullscreen : Bool
  mDeviceValid : Bool
  mHWnd : Bool
  mDevice : Bool
  mVSync : Bool
  mVSyncInterval : Nat
  mColorDepth : Nat
  mIsDepthBuffered : Bool
  mDisplayFrequency : Nat
deriving Repr, DecidableEq

/-- Environment for the OS window-system queries made by the embedded
operations: the monitor returned by
`MonitorFromWindow(mHWnd, MONITOR_DEFAULTTONEAREST)` + `GetMonitorInfo`, and
`AdjustWindowRect`, modelled as the per-style horizontal/vertical decoration
insets it adds to a client rectangle. -/
structure WinEnv where
  monitorFromWindow : MonitorInfo
  adjustExtraW : Nat → Nat
  adjustExtraH : Nat → Nat

/-- Results of the two queries issued by `updateWindowRect`:
`GetWindowRect` and `GetClientRect`; `none` models a `FALSE` return. -/
structure WindowRectQuery where
  windowRect : Option Rect
  clientRect : Option Rect
deriving Repr, DecidableEq

/-- One call out of the surface into the OS window system or into the bound
device, recorded in order. -/
inductive OsCall where
  | setWindowPos (x y : Int) (w h : Nat)
  | setWindowLongStyle (style : Nat)
  | frameChangeNotify
  | setWindowRgn (w h : Nat)
  | deviceInvalidate
  | devicePresent
  | deviceCopy
deriving Repr, DecidableEq

/-- `D3D9RenderWindow::_adjustWindow`: adds the decoration insets of `style`
(`AdjustWindowRect`) to the client size, then clamps the outer size to the
work-area extents of the nearest monitor, with the source's
signed-to-unsigned cast on the extents. -/
def adjustWindow (env : WinEnv) (clientWidth clientHeight style : Nat) : Nat × Nat :=
  let winWidth := clientWidth + env.adjustExtraW style
  let winHeight := clientHeight + env.adjustExtraH style
  let maxW := u32 (env.monitorFromWindow.rcWork.right - env.monitorFromWindow.rcWork.left)
  let maxH := u32 (env.monitorFromWindow.rcWork.bottom - env.monitorFromWindow.rcWork.top)
  (if maxW < winWidth then maxW else winWidth,
   if maxH < winHeight then maxH else winHeight)

/-- `D3D9RenderWindow::setFullscreen`. Mirrors the source: a guarded no-op,
conditional set of the switching flag, unconditional style reset and
geometry update, the fullscreen/windowed OS-call sequences, and the final
`mDevice->invalidate(this)`. -/
def setFullscreen (s : SurfaceState) (env : WinEnv) (fullScreen : Bool)
    (width height : Nat) : SurfaceState × List OsCall :=
  if fullScreen != s.mIsFullScreen || width != s.mWidth || height != s.mHeight then
    let switching := if fullScreen != s.mIsFullScreen then true else s.mSwitchingFullscreen
    let style0 := WS_VISIBLE ||| WS_CLIPCHILDREN
    let oldFullscreen := s.mIsFullScreen
    if fullScreen then
      let style := style0 ||| WS_POPUP
      let mi := env.monitorFromWindow
      let s' := { s with
        mSwitchingFullscreen := switching
        mStyle := style
        mIsFullScreen := fullScreen
        mWidth := width
        mDesiredWidth := width
        mHeight := height
        mDesiredHeight := height
        mTop := mi.rcMonitor.top
        mLeft := mi.rcMonitor.left }
      let calls :=
        if oldFullscreen then
          [OsCall.setWindowPos mi.rcMonitor.left mi.rcMonitor.top width height]
        else
          [OsCall.setWindowPos mi.rcMonitor.left mi.rcMonitor.top width height,
           OsCall.setWindowLongStyle style,
           OsCall.frameChangeNotify]
      (s', calls ++ [OsCall.deviceInvalidate])
    else
      let style := style0 ||| WS_OVERLAPPEDWINDOW
      let s' := { s with
        mSwitchingFullscreen := switching
        mStyle := style
        mIsFullScreen := fullScreen
        mWidth := width
        mDesiredWidth := width
        mHeight := height
        mDesiredHeight := height }
      let wh := adjustWindow env width height style
      (s', [OsCall.setWindowLongStyle style,
            OsCall.setWindowPos 0 0 wh.1 wh.2,
            OsCall.deviceInvalidate])
  else (s, [])

/-- `D3D9RenderWindow::move`: a no-op unless a native handle exists and the
window is not fullscreen; otherwise updates `mLeft`/`mTop` and issues a
`SetWindowPos` whose x/y arguments are `top, left` exactly as in the
source. -/
def move (s : SurfaceState) (top left : Int) : SurfaceState × List OsCall :=
  if s.mHWnd && !s.mIsFullScreen then
    ({ s with mLeft := left, mTop := top }, [OsCall.setWindowPos top left 0 0])
  else (s, [])

/-- `D3D9RenderWindow::resize`: a no-op unless a native handle exists and the
window is not fullscreen; otherwise updates the client size and resizes the
outer window to the `_adjustWindow` result. -/
def resize (s : SurfaceState) (env : WinEnv) (width height : Nat) :
    SurfaceState × List OsCall :=
  if s.mHWnd && !s.mIsFullScreen then
    let wh := adjustWindow env width height s.mStyle
    ({ s with mWidth := width, mHeight := height },
     [OsCall.setWindowPos 0 0 wh.1 wh.2])
  else (s, [])

/-- `D3D9RenderWindow::swapBuffers`: presents through the bound device only
when `mDeviceValid` holds, otherwise does nothing. -/
def swapBuffers (s : SurfaceState) : SurfaceState × List OsCall :=
  if s.mDeviceValid then (s, [OsCall.devicePresent]) else (s, [])

/-- `D3D9RenderWindow::copyToMemory`: calls
`mDevice->copyContentsToMemory` unconditionally. -/
def copyToMemory (s : SurfaceState) : SurfaceState × List OsCall :=
  (s, [OsCall.deviceCopy])

/-- `D3D9RenderWindow::updateWindowRect`: re-reads outer position and client
size from the window system; if either query fails, zeroes
`mTop`, `mLeft`, `mWidth`, `mHeight`. `mWidth`/`mHeight` are `UINT32`
members assigned from `LONG` differences, hence `u32`. -/
def updateWindowRect (s : SurfaceState) (q : WindowRectQuery) : SurfaceState :=
  match q.windowRect with
  | none => { s with mTop := 0, mLeft := 0, mWidth := 0, mHeight := 0 }
  | some rc =>
    match q.clientRect with
    | none => { s with mTop := 0, mLeft := 0, mWidth := 0, mHeight := 0 }
    | some rc2 =>
      { s with
        mTop := rc.top
        mLeft := rc.left
        mWidth := u32 (rc2.right - rc2.left)
        mHeight := u32 (rc2.bottom - rc2.top) }

/-- `D3D9RenderWindow::_finishSwitchingFullscreen`. Fullscreen: reapply the
window region and clear the switching flag. Windowed: recompute the outer
size from the desired client size, position at half the margin between the
work-area extents and the outer size (clamped to zero), adopt the desired
size as current when it differs, and clear the switching flag. -/
def finishSwitchingFullscreen (s : SurfaceState) (env : WinEnv) :
    SurfaceState × List OsCall :=
  if s.mIsFullScreen then
    ({ s with mSwitchingFullscreen := false },
     [OsCall.setWindowRgn s.mWidth s.mHeight])
  else
    let wh := adjustWindow env s.mDesiredWidth s.mDesiredHeight s.mStyle
    let screenw : Int :=
      env.monitorFromWindow.rcWork.right - env.monitorFromWindow.rcWork.left
    let screenh : Int :=
      env.monitorFromWindow.rcWork.bottom - env.monitorFromWindow.rcWork.top
    let left : Int := if (wh.1 : Int) < screenw then (screenw - (wh.1 : Int)) / 2 else 0
    let top : Int := if (wh.2 : Int) < screenh then (screenh - (wh.2 : Int)) / 2 else 0
    let s' :=
      if s.mWidth != s.mDesiredWidth || s.mHeight != s.mDesiredHeight then
        { s with
          mWidth := s.mDesiredWidth
          mHeight := s.mDesiredHeight
          mSwitchingFullscreen := false }
      else { s with mSwitchingFullscreen := false }
    (s', [OsCall.setWindowPos left top wh.1 wh.2])

/-- The Direct3D capability probe and external settings consumed by
`_buildPresentParameters`: `CheckDeviceFormat` for depth/stencil usage
(adapter format, probed format), `CheckDepthStencilMatch` (adapter format,
render-target format, depth/stencil format), the adapter's
`D3DCAPS9::PresentationIntervals` mask, and the output of the external
`determineFSAASettings`. `true` models `SUCCEEDED(...)`. -/
structure Caps where
  checkDeviceFormat : Nat → Nat → Bool
  checkDepthStencilMatch : Nat → Nat → Nat → Bool
  presentationIntervals : Nat
  fsaaType : Nat
  fsaaQuality : Nat

/-- The fields of `D3DPRESENT_PARAMETERS` written by
`_buildPresentParameters`. -/
structure PresentParameters where
  Windowed : Bool
  BackBufferCount : Nat
  EnableAutoDepthStencil : Bool
  BackBufferWidth : Nat
  BackBufferHeight : Nat
  FullScreenRefreshRateInHz : Nat
  PresentationInterval : Nat
  BackBufferFormat : Nat
  AutoDepthStencilFormat : Nat
  MultiSampleType : Nat
  MultiSampleQuality : Nat
deriving Repr, DecidableEq

/-- The `switch (mVSyncInterval)` of `_buildPresentParameters`: cases 2 to 4
select the matching interval, case 1 and the default both select
`D3DPRESENT_INTERVAL_ONE`. -/
def mapVSyncInterval (v : Nat) : Nat :=
  if v = 2 then D3DPRESENT_INTERVAL_TWO
  else if v = 3 then D3DPRESENT_INTERVAL_THREE
  else if v = 4 then D3DPRESENT_INTERVAL_FOUR
  else D3DPRESENT_INTERVAL_ONE

/-- Present-interval selection of `_buildPresentParameters`: immediate when
vsync is off; single interval when windowed; when fullscreen, the mapped
interval re-validated against the adapter's interval mask and reverted to
single interval when unsupported. -/
def selectPresentInterval (caps : Caps) (vsync fullscreen : Bool)
    (vsyncInterval : Nat) : Nat :=
  if vsync then
    if fullscreen then
      let interval := mapVSyncInterval vsyncInterval
      if caps.presentationIntervals &&& interval = 0 then D3DPRESENT_INTERVAL_ONE
      else interval
    else D3DPRESENT_INTERVAL_ONE
  else D3DPRESENT_INTERVAL_IMMEDIATE

/-- Depth/stencil format selection of `_buildPresentParameters`: for color
depth above 16, probe `D3DFMT_D24S8` (then check depth/stencil match to pick
between `D24S8` and `D24X8`), fall back to `D3DFMT_D32`, then to
`D3DFMT_D16`; at or below 16, `D3DFMT_D16` directly. -/
def selectDepthStencilFormat (caps : Caps) (colorDepth backBufferFormat : Nat) : Nat :=
  if 16 < colorDepth then
    if caps.checkDeviceFormat backBufferFormat D3DFMT_D24S8 then
      if caps.checkDepthStencilMatch backBufferFormat backBufferFormat D3DFMT_D24S8 then
        D3DFMT_D24S8
      else D3DFMT_D24X8
    else
      if caps.checkDeviceFormat backBufferFormat D3DFMT_D32 then D3DFMT_D32
      else D3DFMT_D16
  else D3DFMT_D16

/-- `D3D9RenderWindow::_buildPresentParameters`: rebuilds the parameter
block from the surface state and the capability probe. -/
def buildPresentParameters (s : SurfaceState) (caps : Caps) : PresentParameters :=
  let backBufferFormat := if 16 < s.mColorDepth then D3DFMT_X8R8G8B8 else D3DFMT_R5G6B5
  { Windowed := !s.mIsFullScreen
    BackBufferCount := if s.mVSync then 2 else 1
    EnableAutoDepthStencil := s.mIsDepthBuffered
    BackBufferWidth := if s.mWidth = 0 then 1 else s.mWidth
    BackBufferHeight := if s.mHeight = 0 then 1 else s.mHeight
    FullScreenRefreshRateInHz := if s.mIsFullScreen then s.mDisplayFrequency else 0
    PresentationInterval :=
      selectPresentInterval caps s.mVSync s.mIsFullScreen s.mVSyncInterval
    BackBufferFormat := backBufferFormat
    AutoDepthStencilFormat :=
      selectDepthStencilFormat caps s.mColorDepth backBufferFormat
    MultiSampleType := caps.fsaaType
    MultiSampleQuality := if caps.fsaaQuality = 0 then 0 else caps.fsaaQuality }

/-!
Concrete states, environments and capability probes used by witnesses and
counterexamples.
-/

/-- A windowed surface on an 800x600 client area, with a bound, valid
device. -/
def baseState : SurfaceState :=
  { mWidth := 800
    mHeight := 600
    mTop := 0
    mLeft := 0
    mDesiredWidth := 800
    mDesiredHeight := 600
    mIsFullScreen := false
    mStyle := WS_VISIBLE ||| WS_CLIPCHILDREN ||| WS_OVERLAPPEDWINDOW
    mSwitchingFullscreen := false
    mDeviceValid := true
    mHWnd := true
    mDevice := true
    mVSync := false
    mVSyncInterval := 1
    mColorDepth := 32
    mIsDepthBuffered := true
    mDisplayFrequency := 60 }

/-- A fullscreen surface, otherwise like `baseState`. -/
def fullscreenState : SurfaceState :=
  { baseState with mIsFullScreen := true, mWidth := 1920, mHeight := 1080 }

/-- The primary monitor: full rectangle 1920x1080 at the origin, work area
1920x1040, with fixed decoration insets of 16x38. -/
def baseEnv : WinEnv :=
  { monitorFromWindow :=
      { rcMonitor := { left := 0, top := 0, right := 1920, bottom := 1080 }
        rcWork := { left := 0, top := 0, right := 1920, bottom := 1040 } }
    adjustExtraW := fun _ => 16
    adjustExtraH := fun _ => 38 }

/-- A secondary monitor whose work area starts at x = 2000: work rectangle
from (2000, 100) to (3000, 800), with zero decoration insets. -/
def shiftedEnv : WinEnv :=
  { monitorFromWindow :=
      { rcMonitor := { left := 1920, top := 0, right := 3840, bottom := 1080 }
        rcWork := { left := 2000, top := 100, right := 3000, bottom := 800 } }
    adjustExtraW := fun _ => 0
    adjustExtraH := fun _ => 0 }

/-- A windowed surface that desires a 400x300 client area while currently
reporting 640x480. -/
def smallDesiredState : SurfaceState :=
  { baseState with
    mWidth := 640
    mHeight := 480
    mDesiredWidth := 400
    mDesiredHeight := 300
    mSwitchingFullscreen := true }

/-- A capability probe that accepts every format and interval. -/
def capsAllOk : Caps :=
  { checkDeviceFormat := fun _ _ => true
    checkDepthStencilMatch := fun _ _ _ => true
    presentationIntervals := 15
    fsaaType := 0
    fsaaQuality := 0 }

/-- A capability probe that rejects every format and advertises no
presentation interval. -/
def capsRejectAll : Caps :=
  { checkDeviceFormat := fun _ _ => false
    checkDepthStencilMatch := fun _ _ _ => false
    presentationIntervals := 0
    fsaaType := 0
    fsaaQuality := 0 }

/-- A capability probe whose interval mask holds intervals one, two and
three but lacks `D3DPRESENT_INTERVAL_FOUR`. -/
def capsNoFour : Caps :=
  { capsAllOk with presentationIntervals := 7 }

/-- A fullscreen surface with vsync enabled and a requested interval
count of 4. -/
def vsyncFourState : SurfaceState :=
  { fullscreenState with mVSync := true, mVSyncInterval := 4 }

/-!
Claims.
-/

/-- C1: calling `setFullscreen` with the surface's current
(fullscreen, width, height) triple is a complete no-op: the returned state
equals the input state in every field, and the effect trace is empty, so in
particular the device is not invalidated and no window-system call is
made. -/
theorem setFullscreen_current_mode_noop (s : SurfaceState) (env : WinEnv) :
    setFullscreen s env s.mIsFullScreen s.mWidth s.mHeight = (s, []) := by
  simp [setFullscreen]

/-- C2: lifecycle of the transitional switching flag. After
`setFullscreen` the flag equals the old flag OR-ed with whether the
fullscreen flag changed, so a mode-changing call always leaves it `true`
and a pure resize never sets it; `finishSwitchingFullscreen` always clears
it; and no other operation (`move`, `resize`, `updateWindowRect`,
`swapBuffers`, `copyToMemory`) ever modifies it, so it becomes `false` only
through `finishSwitchingFullscreen`. -/
theorem switchingFlag_lifecycle (s : SurfaceState) (env : WinEnv)
    (q : WindowRectQuery) (f : Bool) (w h : Nat) (t l : Int) :
    (setFullscreen s env f w h).1.mSwitchingFullscreen
        = (s.mSwitchingFullscreen || (f != s.mIsFullScreen))
    ∧ (finishSwitchingFullscreen s env).1.mSwitchingFullscreen = false
    ∧ (move s t l).1.mSwitchingFullscreen = s.mSwitchingFullscreen
    ∧ (resize s env w h).1.mSwitchingFullscreen = s.mSwitchingFullscreen
    ∧ (updateWindowRect s q).mSwitchingFullscreen = s.mSwitchingFullscreen
    ∧ (swapBuffers s).1.mSwitchingFullscreen = s.mSwitchingFullscreen
    ∧ (copyToMemory s).1.mSwitchingFullscreen = s.mSwitchingFullscreen := by
  refine ⟨?_, ?_, ?_, ?_, ?_, ?_, ?_⟩
  · by_cases hf : f = s.mIsFullScreen
    · subst hf
      simp only [setFullscreen, bne_self_eq_false, Bool.false_or, Bool.or_false]
      split
      · split <;> rfl
      · rfl
    · have hb : (f != s.mIsFullScreen) = true := by
        simpa [bne_iff_ne] using hf
      simp only [setFullscreen, hb, Bool.true_or, Bool.or_true, if_true]
      split <;> rfl
  · unfold finishSwitchingFullscreen
    split
    · rfl
    · simp only
      split <;> rfl
  · unfold move
    split <;> rfl
  · unfold resize
    split <;> rfl
  · unfold updateWindowRect
    rcases q with ⟨wr, cr⟩
    cases wr <;> cases cr <;> rfl
  · unfold swapBuffers
    split <;> rfl
  · rfl

/-- C3: depth/stencil selection chain of `_buildPresentParameters`. For
color depth above 16 (backbuffer format `D3DFMT_X8R8G8B8`): if the probe
accepts `D3DFMT_D24S8` then the depth/stencil-match check picks between the
stencil-bearing `D24S8` and its depth-only sibling `D24X8`; if `D24S8` is
rejected, `D3DFMT_D32` is tried; if that is also rejected, `D3DFMT_D16` is
chosen. For color depth at most 16, `D3DFMT_D16` is chosen directly, and
the result does not depend on the depth-format probe at all. -/
theorem depthStencil_fallback_chain (s : SurfaceState) (caps : Caps) :
    (16 < s.mColorDepth →
      (caps.checkDeviceFormat D3DFMT_X8R8G8B8 D3DFMT_D24S8 = true →
        (caps.checkDepthStencilMatch D3DFMT_X8R8G8B8 D3DFMT_X8R8G8B8 D3DFMT_D24S8 = true →
          (buildPresentParameters s caps).AutoDepthStencilFormat = D3DFMT_D24S8)
        ∧ (caps.checkDepthStencilMatch D3DFMT_X8R8G8B8 D3DFMT_X8R8G8B8 D3DFMT_D24S8 = false →
          (buildPresentParameters s caps).AutoDepthStencilFormat = D3DFMT_D24X8))
      ∧ (caps.checkDeviceFormat D3DFMT_X8R8G8B8 D3DFMT_D24S8 = false →
        (caps.checkDeviceFormat D3DFMT_X8R8G8B8 D3DFMT_D32 = true →
          (buildPresentParameters s caps).AutoDepthStencilFormat = D3DFMT_D32)
        ∧ (caps.checkDeviceFormat D3DFMT_X8R8G8B8 D3DFMT_D32 = false →
          (buildPresentParameters s caps).AutoDepthStencilFormat = D3DFMT_D16)))
    ∧ (s.mColorDepth ≤ 16 →
      (buildPresentParameters s caps).AutoDepthStencilFormat = D3DFMT_D16
      ∧ ∀ cdf : Nat → Nat → Bool, ∀ cdsm : Nat → Nat → Nat → Bool,
          buildPresentParameters s
              { caps with checkDeviceFormat := cdf, checkDepthStencilMatch := cdsm }
            = buildPresentParameters s caps) := by
  constructor
  · intro h16
    constructor
    · intro hok
      constructor <;> intro hm <;>
        simp [buildPresentParameters, selectDepthStencilFormat, h16, hok, hm]
    · intro hno
      constructor <;> intro h32 <;>
        simp [buildPresentParameters, selectDepthStencilFormat, h16, hno, h32]
  · intro h16
    have hlt : ¬ 16 < s.mColorDepth := by omega
    constructor
    · simp [buildPresentParameters, selectDepthStencilFormat, hlt]
    · intro cdf cdsm
      simp [buildPresentParameters, selectDepthStencilFormat, selectPresentInterval, hlt]

/-- C3 witness: on a color-depth-32 surface with a probe accepting all
formats, the negotiated depth/stencil format is the stencil-bearing
`D3DFMT_D24S8`. -/
theorem depthStencil_fallback_chain_witness :
    (buildPresentParameters baseState capsAllOk).AutoDepthStencilFormat = D3DFMT_D24S8 :=
  (((depthStencil_fallback_chain baseState capsAllOk).1 (by decide)).1 rfl).1 rfl

/-- C4: present-interval selection of `_buildPresentParameters`. Vsync off
selects the immediate interval; vsync on while windowed selects the single
interval; vsync on while fullscreen maps a requested count of 1 to the
single interval, counts 2 to 4 to the matching interval downgraded to the
single interval when the capability mask lacks it, and any other count to
the single interval; in particular a requested count of 4 with a mask
lacking `D3DPRESENT_INTERVAL_FOUR` yields the single interval. -/
theorem presentInterval_selection (s : SurfaceState) (caps : Caps) :
    (s.mVSync = false →
      (buildPresentParameters s caps).PresentationInterval
        = D3DPRESENT_INTERVAL_IMMEDIATE)
    ∧ (s.mVSync = true → s.mIsFullScreen = false →
      (buildPresentParameters s caps).PresentationInterval
        = D3DPRESENT_INTERVAL_ONE)
    ∧ (s.mVSync = true → s.mIsFullScreen = true →
      (s.mVSyncInterval = 1 →
        (buildPresentParameters s caps).PresentationInterval
          = D3DPRESENT_INTERVAL_ONE)
      ∧ (s.mVSyncInterval = 2 →
        (buildPresentParameters s caps).PresentationInterval
          = (if caps.presentationIntervals &&& D3DPRESENT_INTERVAL_TWO = 0 then
              D3DPRESENT_INTERVAL_ONE else D3DPRESENT_INTERVAL_TWO))
      ∧ (s.mVSyncInterval = 3 →
        (buildPresentParameters s caps).PresentationInterval
          = (if caps.presentationIntervals &&& D3DPRESENT_INTERVAL_THREE = 0 then
              D3DPRESENT_INTERVAL_ONE else D3DPRESENT_INTERVAL_THREE))
      ∧ (s.mVSyncInterval = 4 →
        (buildPresentParameters s caps).PresentationInterval
          = (if caps.presentationIntervals &&& D3DPRESENT_INTERVAL_FOUR = 0 then
              D3DPRESENT_INTERVAL_ONE else D3DPRESENT_INTERVAL_FOUR))
      ∧ (s.mVSyncInterval ≠ 1 → s.mVSyncInterval ≠ 2 → s.mVSyncInterval ≠ 3 →
          s.mVSyncInterval ≠ 4 →
        (buildPresentParameters s caps).PresentationInterval
          = D3DPRESENT_INTERVAL_ONE)
      ∧ (s.mVSyncInterval = 4 →
          caps.presentationIntervals &&& D3DPRESENT_INTERVAL_FOUR = 0 →
        (buildPresentParameters s caps).PresentationInterval
          = D3DPRESENT_INTERVAL_ONE)) := by
  refine ⟨?_, ?_, ?_⟩
  · intro hv
    simp [buildPresentParameters, selectPresentInterval, hv]
  · intro hv hf
    simp [buildPresentParameters, selectPresentInterval, hv, hf]
  · intro hv hf
    refine ⟨?_, ?_, ?_, ?_, ?_, ?_⟩
    · intro h1
      simp [buildPresentParameters, selectPresentInterval, mapVSyncInterval, hv, hf, h1,
        D3DPRESENT_INTERVAL_ONE]
    · intro h2
      simp [buildPresentParameters, selectPresentInterval, mapVSyncInterval, hv, hf, h2]
    · intro h3
      simp [buildPresentParameters, selectPresentInterval, mapVSyncInterval, hv, hf, h3]
    · intro h4
      simp [buildPresentParameters, selectPresentInterval, mapVSyncInterval, hv, hf, h4]
    · intro h1 h2 h3 h4
      simp [buildPresentParameters, selectPresentInterval, mapVSyncInterval, hv, hf,
        h1, h2, h3, h4, D3DPRESENT_INTERVAL_ONE]
    · intro h4 hm
      simp [buildPresentParameters, selectPresentInterval, mapVSyncInterval, hv, hf, h4, hm]

/-- C4 witness: vsync enabled, fullscreen, requested interval count 4, and
an interval mask holding intervals one to three but lacking
`D3DPRESENT_INTERVAL_FOUR`: the negotiated interval is the single
interval. -/
theorem presentInterval_selection_witness :
    (buildPresentParameters vsyncFourState capsNoFour).PresentationInterval
      = D3DPRESENT_INTERVAL_ONE :=
  (((presentInterval_selection vsyncFourState capsNoFour).2.2 rfl rfl).2.2.2.2.2)
    rfl (by decide)

/-- C5 counterexample: `_finishSwitchingFullscreen` into windowed mode does
NOT re-center the window within the current monitor's work area. On
`shiftedEnv` (work area from (2000, 100) to (3000, 800)) with desired size
400x300, the emitted `SetWindowPos` places the window at (300, 200) with
outer size 400x300, so its right edge (700) lies strictly left of the work
area's left edge (2000): the window is positioned entirely outside the work
area, because the source computes `(screenw - winWidth) / 2` without adding
the work-area origin. -/
theorem finishSwitching_centering_cex :
    smallDesiredState.mIsFullScreen = false
    ∧ (finishSwitchingFullscreen smallDesiredState shiftedEnv).2
        = [OsCall.setWindowPos 300 200 400 300]
    ∧ (300 : Int) + 400 < shiftedEnv.monitorFromWindow.rcWork.left := by
  refine ⟨rfl, by decide, by decide⟩

/-- C5 amended: `_finishSwitchingFullscreen` into windowed mode recomputes
the outer size from the desired (not current) width/height, positions the
window at half the margin between the work-area extents and the outer size
measured from the desktop origin (so it is centered in the work area only
when the work-area origin is the desktop origin), with left/top clamped to
zero when the window is at least as large as the screen, and adopts the
desired size as the current width/height; the switching flag is cleared. -/
theorem finishSwitching_windowed_geometry (s : SurfaceState) (env : WinEnv)
    (h : s.mIsFullScreen = false) :
    (finishSwitchingFullscreen s env).1.mWidth = s.mDesiredWidth
    ∧ (finishSwitchingFullscreen s env).1.mHeight = s.mDesiredHeight
    ∧ (finishSwitchingFullscreen s env).1.mSwitchingFullscreen = false
    ∧ (finishSwitchingFullscreen s env).2
        = [OsCall.setWindowPos
            (if ((adjustWindow env s.mDesiredWidth s.mDesiredHeight s.mStyle).1 : Int) <
                env.monitorFromWindow.rcWork.right - env.monitorFromWindow.rcWork.left
             then (env.monitorFromWindow.rcWork.right - env.monitorFromWindow.rcWork.left
                   - ((adjustWindow env s.mDesiredWidth s.mDesiredHeight s.mStyle).1 : Int)) / 2
             else 0)
            (if ((adjustWindow env s.mDesiredWidth s.mDesiredHeight s.mStyle).2 : Int) <
                env.monitorFromWindow.rcWork.bottom - env.monitorFromWindow.rcWork.top
             then (env.monitorFromWindow.rcWork.bottom - env.monitorFromWindow.rcWork.top
                   - ((adjustWindow env s.mDesiredWidth s.mDesiredHeight s.mStyle).2 : Int)) / 2
             else 0)
            (adjustWindow env s.mDesiredWidth s.mDesiredHeight s.mStyle).1
            (adjustWindow env s.mDesiredWidth s.mDesiredHeight s.mStyle).2] := by
  refine ⟨?_, ?_, ?_, ?_⟩ <;>
    simp only [finishSwitchingFullscreen, h, Bool.false_eq_true, if_false] <;>
    split <;>
    simp_all [Bool.or_eq_false_iff, bne_eq_false_iff_eq]

/-- C5 witness for the amended claim: on the concrete windowed surface
`smallDesiredState`, the state after `finishSwitchingFullscreen` adopts the
desired width 400 as current. -/
theorem finishSwitching_windowed_geometry_witness :
    (finishSwitchingFullscreen smallDesiredState shiftedEnv).1.mWidth
      = smallDesiredState.mDesiredWidth :=
  (finishSwitching_windowed_geometry smallDesiredState shiftedEnv rfl).1

/-- C6: for every requested client size and decoration style,
`_adjustWindow` never returns an outer size exceeding the monitor's
work-area extents in either axis, provided the work rectangle is
well-formed and its extents are representable as 32-bit values (the source
compares against `(unsigned int)(right - left)`). -/
theorem adjustWindow_clamped (env : WinEnv) (cw ch style : Nat)
    (hw0 : 0 ≤ env.monitorFromWindow.rcWork.right - env.monitorFromWindow.rcWork.left)
    (hw1 : env.monitorFromWindow.rcWork.right - env.monitorFromWindow.rcWork.left
            < 4294967296)
    (hh0 : 0 ≤ env.monitorFromWindow.rcWork.bottom - env.monitorFromWindow.rcWork.top)
    (hh1 : env.monitorFromWindow.rcWork.bottom - env.monitorFromWindow.rcWork.top
            < 4294967296) :
    ((adjustWindow env cw ch style).1 : Int)
        ≤ env.monitorFromWindow.rcWork.right - env.monitorFromWindow.rcWork.left
    ∧ ((adjustWindow env cw ch style).2 : Int)
        ≤ env.monitorFromWindow.rcWork.bottom - env.monitorFromWindow.rcWork.top := by
  constructor <;> simp only [adjustWindow, u32] <;> split <;> omega

/-- C6 witness: a 5000x5000 client request on the primary monitor (work
area 1920x1040) is clamped to at most the work-area extents. -/
theorem adjustWindow_clamped_witness :
    ((adjustWindow baseEnv 5000 5000 0).1 : Int)
        ≤ baseEnv.monitorFromWindow.rcWork.right - baseEnv.monitorFromWindow.rcWork.left
    ∧ ((adjustWindow baseEnv 5000 5000 0).2 : Int)
        ≤ baseEnv.monitorFromWindow.rcWork.bottom - baseEnv.monitorFromWindow.rcWork.top :=
  adjustWindow_clamped baseEnv 5000 5000 0 (by decide) (by decide) (by decide) (by decide)

/-- C7 counterexample: `_buildPresentParameters` never surfaces a
capability-probe rejection as an error: with a probe that rejects every
depth format, including the 16-bit final fallback itself, negotiation on a
color-depth-32 surface still completes and silently selects the final
fallback format `D3DFMT_D16` (the source contains no configuration-error
path and never probes `D3DFMT_D16`), contradicting the claim that the last
fallback step being rejected makes negotiation fail rather than silently
select that format. -/
theorem negotiation_silent_fallback_cex :
    capsRejectAll.checkDeviceFormat D3DFMT_X8R8G8B8 D3DFMT_D24S8 = false
    ∧ capsRejectAll.checkDeviceFormat D3DFMT_X8R8G8B8 D3DFMT_D32 = false
    ∧ capsRejectAll.checkDeviceFormat D3DFMT_X8R8G8B8 D3DFMT_D16 = false
    ∧ (buildPresentParameters baseState capsRejectAll).AutoDepthStencilFormat
        = D3DFMT_D16 :=
  ⟨rfl, rfl, rfl, rfl⟩

/-- C7 amended: a capability-probe rejection is consumed internally by the
fallback chain and never surfaced to the caller; when both probed formats
(`D3DFMT_D24S8` and `D3DFMT_D32`) are rejected, negotiation silently
selects the final fallback `D3DFMT_D16` without probing it: the result is
unchanged under any alteration of the probe's answers about formats other
than the two probed ones. -/
theorem negotiation_consumes_rejections (s : SurfaceState) (caps : Caps)
    (h16 : 16 < s.mColorDepth)
    (h1 : caps.checkDeviceFormat D3DFMT_X8R8G8B8 D3DFMT_D24S8 = false)
    (h2 : caps.checkDeviceFormat D3DFMT_X8R8G8B8 D3DFMT_D32 = false) :
    (buildPresentParameters s caps).AutoDepthStencilFormat = D3DFMT_D16
    ∧ ∀ cdf : Nat → Nat → Bool,
        cdf D3DFMT_X8R8G8B8 D3DFMT_D24S8 = false →
        cdf D3DFMT_X8R8G8B8 D3DFMT_D32 = false →
        buildPresentParameters s { caps with checkDeviceFormat := cdf }
          = buildPresentParameters s caps := by
  constructor
  · simp [buildPresentParameters, selectDepthStencilFormat, h16, h1, h2]
  · intro cdf e1 e2
    simp [buildPresentParameters, selectDepthStencilFormat, selectPresentInterval,
      h16, h1, h2, e1, e2]

/-- C7 witness for the amended claim: with the all-rejecting probe on a
color-depth-32 surface, the negotiated depth/stencil format is
`D3DFMT_D16`. -/
theorem negotiation_consumes_rejections_witness :
    (buildPresentParameters fullscreenState capsRejectAll).AutoDepthStencilFormat
      = D3DFMT_D16 :=
  (negotiation_consumes_rejections fullscreenState capsRejectAll (by decide) rfl rfl).1

/-- C8 counterexample: `copyToMemory` is NOT silently skipped when a device
is bound but the validity flag is false: on a state with `mDevice = true`
and `mDeviceValid = false` it still performs the device copy call. -/
theorem copyToMemory_invalid_cex :
    ({ baseState with mDeviceValid := false } : SurfaceState).mDevice = true
    ∧ ({ baseState with mDeviceValid := false } : SurfaceState).mDeviceValid = false
    ∧ (copyToMemory { baseState with mDeviceValid := false }).2
        = [OsCall.deviceCopy] :=
  ⟨rfl, rfl, rfl⟩

/-- C8 amended: `swapBuffers` performs the device present exactly when the
validity flag is true and is silently skipped otherwise, regardless of
whether a device is bound; `copyToMemory` performs the device copy
unconditionally, with no binding or validity check; neither operation
raises a precondition failure for an unbound device (beyond the
thread-affinity guard, which is outside this model). -/
theorem present_ops_validity_gating (s : SurfaceState) :
    swapBuffers s = (s, if s.mDeviceValid then [OsCall.devicePresent] else [])
    ∧ copyToMemory s = (s, [OsCall.deviceCopy]) := by
  constructor
  · by_cases h : s.mDeviceValid <;> simp [swapBuffers, h]
  · rfl

/-- C9: the desired width/height fields are an invariant of every operation
other than surface initialization and `setFullscreen`: the OS-notification
path `updateWindowRect` never modifies them — even though on successful
queries it overwrites the current top, left, width and height — and neither
do `move`, `resize`, `swapBuffers`, `copyToMemory` or
`finishSwitchingFullscreen`. -/
theorem desiredSize_os_invariant (s : SurfaceState) (env : WinEnv)
    (q : WindowRectQuery) (rc rc2 : Rect) (t l : Int) (w h : Nat) :
    (updateWindowRect s q).mDesiredWidth = s.mDesiredWidth
    ∧ (updateWindowRect s q).mDesiredHeight = s.mDesiredHeight
    ∧ (updateWindowRect s { windowRect := some rc, clientRect := some rc2 }).mTop
        = rc.top
    ∧ (updateWindowRect s { windowRect := some rc, clientRect := some rc2 }).mLeft
        = rc.left
    ∧ (updateWindowRect s { windowRect := some rc, clientRect := some rc2 }).mWidth
        = u32 (rc2.right - rc2.left)
    ∧ (updateWindowRect s { windowRect := some rc, clientRect := some rc2 }).mHeight
        = u32 (rc2.bottom - rc2.top)
    ∧ (move s t l).1.mDesiredWidth = s.mDesiredWidth
    ∧ (move s t l).1.mDesiredHeight = s.mDesiredHeight
    ∧ (resize s env w h).1.mDesiredWidth = s.mDesiredWidth
    ∧ (resize s env w h).1.mDesiredHeight = s.mDesiredHeight
    ∧ (swapBuffers s).1.mDesiredWidth = s.mDesiredWidth
    ∧ (swapBuffers s).1.mDesiredHeight = s.mDesiredHeight
    ∧ (copyToMemory s).1.mDesiredWidth = s.mDesiredWidth
    ∧ (copyToMemory s).1.mDesiredHeight = s.mDesiredHeight
    ∧ (finishSwitchingFullscreen s env).1.mDesiredWidth = s.mDesiredWidth
    ∧ (finishSwitchingFullscreen s env).1.mDesiredHeight = s.mDesiredHeight := by
  obtain ⟨wr, cr⟩ := q
  refine ⟨?_, ?_, rfl, rfl, rfl, rfl, ?_, ?_, ?_, ?_, ?_, ?_, rfl, rfl, ?_, ?_⟩ <;>
    first
      | (cases wr <;> cases cr <;> rfl)
      | (simp only [move, resize, swapBuffers, finishSwitchingFullscreen] <;>
          split <;> first | rfl | (split <;> rfl))

/-- C10: when the surface is fullscreen, or when it has no native window
handle, `move` and `resize` are complete no-ops: the state is returned
unchanged and no window-system call is made. -/
theorem move_resize_noop (s : SurfaceState) (env : WinEnv) (t l : Int)
    (w h : Nat) (hc : s.mHWnd = false ∨ s.mIsFullScreen = true) :
    move s t l = (s, []) ∧ resize s env w h = (s, []) := by
  rcases hc with h1 | h1 <;> constructor <;> simp [move, resize, h1]

/-- C10 witness: on the concrete fullscreen surface `fullscreenState`,
`move` and `resize` return the state unchanged with an empty effect
trace. -/
theorem move_resize_noop_witness :
    move fullscreenState 10 20 = (fullscreenState, [])
    ∧ resize fullscreenState baseEnv 5 5 = (fullscreenState, []) :=
  move_resize_noop fullscreenState baseEnv 10 20 5 5 (Or.inr rfl)
